import Mathlib

/-!
Verification of the eureca-assistant retrieval-plus-context pipeline.

Shallow embedding of the Python sources:
  conversation_processor.py, context_manager.py, prompt_template.py,
  main.py (find_relevant_content), pdf_processor.py (_should_reprocess).
Python dicts are modelled as association lists with first-match lookup and
in-place-update insertion; Python values as the inductive `PyVal`;
machine strings as Lean `String` over their character data.
-/

namespace Eureca

/-- Model of the Python values that flow through the program:
strings, integers, booleans, `None`, and (string-keyed) dicts. -/
inductive PyVal where
  | str : String → PyVal
  | int : Int → PyVal
  | bool : Bool → PyVal
  | none : PyVal
  | dict : List (String × PyVal) → PyVal

/-- Python truthiness (`bool(v)`): empty string, 0, False, None, {} are falsy. -/
def pyTruthy : PyVal → Bool
  | .str s => s != ""
  | .int n => n != 0
  | .bool b => b
  | .none => false
  | .dict d => !d.isEmpty

/-- Python `str(v)` for the values we need. -/
def pyStr : PyVal → String
  | .str s => s
  | .int n => toString n
  | .bool b => if b then "True" else "False"
  | .none => "None"
  | .dict _ => "{...}"

/-- Does the value carry a Python `str`? (`isinstance(v, str)`.) -/
def PyVal.isStr : PyVal → Bool
  | .str _ => true
  | _ => false

/-- A Python dict as an association list; lookup is first-match. -/
abbrev PyDict := List (String × PyVal)

/-- `d[k] = v`: replace the first (for a dict: only) binding of `k` in
place — dicts keep insertion order — otherwise append the new binding. -/
def dictInsert : PyDict → String → PyVal → PyDict
  | [], k, v => [(k, v)]
  | (a, b) :: t, k, v =>
    if a == k then (k, v) :: t else (a, b) :: dictInsert t k v

/-- `d.update(new)`: insert each binding of `new` in order. -/
def dictUpdate (d : PyDict) (new : PyDict) : PyDict :=
  new.foldl (fun acc p => dictInsert acc p.1 p.2) d

/-- Lowercasing of one character as Python `str.lower` acts on the
Portuguese text of this program: ASCII letters and the Latin-1
uppercase accented range (except the multiplication sign). -/
def pyLowerChar (c : Char) : Char :=
  if 'A' ≤ c ∧ c ≤ 'Z' then Char.ofNat (c.toNat + 32)
  else if 'À' ≤ c ∧ c ≤ 'Þ' ∧ c ≠ '×' then Char.ofNat (c.toNat + 32)
  else c

/-- Python `s.lower()` on character data. -/
def pyLowerL (l : List Char) : List Char := l.map pyLowerChar

/-- Python `s.lower()`. -/
def pyLower (s : String) : String := ⟨pyLowerL s.data⟩

/-- Python whitespace characters (`str.split()` / `str.strip()` / `\s`). -/
def isPySpace (c : Char) : Bool :=
  c = ' ' ∨ c = '\t' ∨ c = '\n' ∨ c = '\x0d' ∨ c = '\x0b' ∨ c = '\x0c'

/-- Python `s.strip(chars)`: drop characters of the set from both ends. -/
def stripCharsL (cs : List Char) (l : List Char) : List Char :=
  ((l.dropWhile (cs.contains ·)).reverse.dropWhile (cs.contains ·)).reverse

/-- Python `s.strip()` (whitespace) on character data. -/
def stripWsL (l : List Char) : List Char :=
  ((l.dropWhile isPySpace).reverse.dropWhile isPySpace).reverse

/-- Python `s.strip()`. -/
def pyStripWs (s : String) : String := ⟨stripWsL s.data⟩

/-- Split on maximal whitespace runs, dropping empty words — the helper
behind Python's argumentless `str.split()`. `cur` accumulates the
current word reversed. -/
def pySplitWsAux : List Char → List Char → List (List Char)
  | [], cur => if cur.isEmpty then [] else [cur.reverse]
  | c :: rest, cur =>
    if isPySpace c then
      if cur.isEmpty then pySplitWsAux rest []
      else cur.reverse :: pySplitWsAux rest []
    else pySplitWsAux rest (c :: cur)

/-- Python `s.split()` (no argument): split on whitespace, no empty parts. -/
def pySplitWs (s : String) : List String :=
  (pySplitWsAux s.data []).map fun l => ⟨l⟩

/-- Split on every character equal to `sep`, keeping empty fragments —
Python `s.split(sep)` for a one-character separator. -/
def splitCharL (sep : Char) : List Char → List (List Char)
  | [] => [[]]
  | c :: rest =>
    if c = sep then [] :: splitCharL sep rest
    else match splitCharL sep rest with
      | [] => [[c]]
      | w :: ws => (c :: w) :: ws

/-- Leftmost non-overlapping count of occurrences of `sub` — the helper
behind Python `s.count(sub)`; `fuel` bounds the scan. -/
def pyCountAux (sub : List Char) : Nat → List Char → Nat
  | 0, _ => 0
  | _ + 1, [] => 0
  | fuel + 1, c :: rest =>
    if sub.isPrefixOf (c :: rest) then
      1 + pyCountAux sub fuel (List.drop (sub.length - 1) rest)
    else pyCountAux sub fuel rest

/-- Python `s.count(sub)`: non-overlapping occurrences, scanning left to
right; an empty pattern counts `len(s) + 1` as in Python. -/
def pyCount (sub : List Char) (l : List Char) : Nat :=
  if sub.isEmpty then l.length + 1 else pyCountAux sub l.length l

/-- Python `sep.join(parts)`. -/
def joinSep (sep : String) : List String → String
  | [] => ""
  | [x] => x
  | x :: xs => x ++ sep ++ joinSep sep xs

/-- Python `s[:n]` (slicing counts code points). -/
def pyTake (n : Nat) (s : String) : String := ⟨s.data.take n⟩

/-- Split on the leftmost non-overlapping occurrences of a separator
string — Python `s.split(sep)` for `sep = "\n\n"`; `fuel` bounds the
scan, `cur` accumulates the current fragment reversed. -/
def splitSepAux (sep : List Char) : Nat → List Char → List Char → List (List Char)
  | _, [], cur => [cur.reverse]
  | 0, acc, cur => [cur.reverse ++ acc]
  | fuel + 1, c :: rest, cur =>
    if sep.isPrefixOf (c :: rest) then
      cur.reverse :: splitSepAux sep fuel (List.drop (sep.length - 1) rest) []
    else splitSepAux sep fuel rest (c :: cur)

/-- Python `s.split(sep)` for a non-empty separator string. -/
def splitSep (sep : String) (s : String) : List String :=
  (splitSepAux sep.data s.data.length s.data []).map fun l => ⟨l⟩

/-! ## conversation_processor.py -/

/-- `ConversationProcessor.question_patterns`: the regex-pattern dict built
in `__init__`. Its keys are `multi_part`, `numerical`, `comparison`,
`requirement`, `legal`, `doubt`. -/
def question_patterns : List (String × String) :=
  [("multi_part", "\\?.*\\?"),
   ("numerical", "\\d+"),
   ("comparison", "diferença|versus|comparação|entre"),
   ("requirement", "preciso|necessário|obrigatório"),
   ("legal", "lei|artigo|legislação|clt"),
   ("doubt", "como|qual|quando|onde|por que|porque|quem|quanto")]

/-- Python `d[k]` on a string dict: the value, or a `KeyError`. -/
def dictGetStr (d : List (String × String)) (k : String) : Except String String :=
  match d.lookup k with
  | some v => .ok v
  | none => .error ("KeyError: " ++ k)

/-- The interrogative words of the lookahead
`(?=como|qual|quando|onde|por que|porque|quem|quanto)`. -/
def interrogatives : List (List Char) :=
  ["como".data, "qual".data, "quando".data, "onde".data,
   "por que".data, "porque".data, "quem".data, "quanto".data]

/-- Case-insensitive prefix test: `pat` (already lowercase) against the
lowered text. -/
def ciHasPref : List Char → List Char → Bool
  | [], _ => true
  | _ :: _, [] => false
  | p :: ps, c :: cs => p == pyLowerChar c && ciHasPref ps cs

/-- Match of the regex `\s+CONJ\s+(?=interrogative)` (IGNORECASE) at the
head of `l`; on success returns the suffix starting at the lookahead
(the regex consumes up to, not including, the interrogative). The greedy
`\s+` runs cannot backtrack usefully because neither the conjunction nor
any interrogative starts with whitespace, so the match is deterministic. -/
def tryMatchConj (conj : List Char) (l : List Char) : Option (List Char) :=
  let ws1 := l.takeWhile isPySpace
  if ws1.isEmpty then none
  else
    let r1 := l.dropWhile isPySpace
    if ciHasPref conj r1 then
      let r2 := r1.drop conj.length
      let ws2 := r2.takeWhile isPySpace
      if ws2.isEmpty then none
      else
        let r3 := r2.dropWhile isPySpace
        if interrogatives.any (fun w => ciHasPref w r3) then some r3 else none
    else none

/-- Left-to-right, non-overlapping substitution of
`\s+CONJ\s+(?=interrogative)` by `"? "`, as `re.sub` performs it;
scanning resumes at the lookahead position. `fuel` bounds the scan. -/
def subConjAux (conj : List Char) : Nat → List Char → List Char
  | 0, l => l
  | _ + 1, [] => []
  | fuel + 1, c :: rest =>
    match tryMatchConj conj (c :: rest) with
    | some r3 => '?' :: ' ' :: subConjAux conj fuel r3
    | none => c :: subConjAux conj fuel rest

/-- One `re.sub(r"\s+CONJ\s+(?=...)", "? ", text, flags=re.IGNORECASE)`. -/
def subConj (conj : String) (s : String) : String :=
  ⟨subConjAux conj.data s.data.length s.data⟩

/-- `ConversationProcessor._split_questions`: rewrite `" e "`/`" ou "`
before an interrogative into `"? "`, split on `?`, keep the non-blank
fragments stripped and re-terminated with `?`. -/
def split_questions (text : String) : List String :=
  let t1 := subConj "e" text
  let t2 := subConj "ou" t1
  (splitCharL '?' t2.data).filterMap fun q =>
    let s := stripWsL q
    if s.isEmpty then none else some (⟨s ++ ['?']⟩ : String)

/-- `ConversationProcessor._evaluate_complexity`, step for step: the score
starts at 0, and each criterion is read back from `question_patterns`
using the keys the source writes — `has_multiple_questions` and
`is_comparison` are dict accesses and raise `KeyError` when absent. -/
def evaluate_complexity (question : String) : Except String String := do
  let p1 ← dictGetStr question_patterns "has_multiple_questions"
  let s1 : Nat := if p1 != "" then 2 else 0
  let p2 ← dictGetStr question_patterns "is_comparison"
  let s2 : Nat := if p2 != "" then 2 else 0
  let s3 : Nat := if (pySplitWs question).length > 20 then 1 else 0
  let p4 ← dictGetStr question_patterns "legal"
  let s4 : Nat := if p4 != "" then 1 else 0
  let s5 : Nat := if (split_questions question).length > 1 then 2 else 0
  let score := s1 + s2 + s3 + s4 + s5
  if score ≤ 2 then return "simples"
  else if score ≤ 4 then return "média"
  else return "complexa"

/-! ## prompt_template.py -/

/-- The greeting set of `PromptTemplate.is_greeting`. -/
def saudacoes : List String :=
  ["oi", "olá", "ola", "hi", "hello", "ei",
   "bom dia", "boa tarde", "boa noite", "hey"]

/-- `PromptTemplate.is_greeting`: `text.lower().strip('!., ') in saudacoes`. -/
def is_greeting (text : String) : Bool :=
  saudacoes.contains ⟨stripCharsL ['!', '.', ',', ' '] (pyLowerL text.data)⟩

/-- `GREETING_TEMPLATE.substitute(...)`: the template text with the four
placeholders filled in. -/
def greetingRendered (nome setor possui status : String) : String :=
  "Você é o assistente virtual da Eureca. \n    \nCONTEXTO ESPECÍFICO:\nEmpresa: "
  ++ nome ++ "\nSetor: " ++ setor ++ "\nStatus: " ++ possui
  ++ "\n\nINSTRUÇÕES EXATAS:\nResponda EXATAMENTE neste formato:\n\"Olá! Que bom ter você aqui! Sou o assistente da Eureca e estou aqui para ajudar a "
  ++ nome ++ " com tudo relacionado à Lei de Aprendizagem. Vi que vocês são do setor de "
  ++ setor ++ " e " ++ status
  ++ ". Como posso ajudar hoje?\"\n\nREGRAS CRÍTICAS:\n- Use EXATAMENTE o formato acima\n- NÃO adicione NADA além do texto especificado\n- NÃO mencione leis ou artigos\n- NÃO sugira próximos passos\n- NÃO inclua informações adicionais"

/-- The fixed fallback greeting used when `nome_empresa` or `setor` is
missing or falsy. -/
def fallbackGreeting : String :=
  "Olá! Que bom ter você aqui! Sou o assistente da Eureca e estou aqui para ajudar com tudo relacionado à Lei de Aprendizagem. Como posso ajudar hoje?"

/-- The `possui_programa == "Sim"` test of `generate_greeting`: a Python
`==` against the string literal, false for every non-string value. -/
def possuiSim (context : PyDict) : Bool :=
  match context.lookup "possui_programa" with
  | some (.str s) => s == "Sim"
  | _ => false

/-- The `status_programa` phrase computed by `generate_greeting`. -/
def statusPrograma (context : PyDict) : String :=
  if possuiSim context then "já possuem um programa de aprendizagem"
  else "ainda não possuem um programa de aprendizagem"

/-- `PromptTemplate.generate_greeting`, as the content of the single
`SystemMessage` it returns. All four template variables are supplied, so
`Template.substitute` cannot raise and the `except KeyError` fallback is
dead code. -/
def generate_greeting (context : PyDict) : String :=
  let nomeV := (context.lookup "nome_empresa").getD .none
  let setorV := (context.lookup "setor").getD .none
  if !pyTruthy nomeV || !pyTruthy setorV then fallbackGreeting
  else
    let possuiStr := pyStr ((context.lookup "possui_programa").getD (.str "Não informado"))
    greetingRendered (pyStr nomeV) (pyStr setorV) possuiStr (statusPrograma context)

/-! ## context_manager.py -/

/-- A LangChain chat message (`HumanMessage` / `AIMessage`). -/
inductive Msg where
  | human : String → Msg
  | ai : String → Msg

/-- One entry of `conversation_history`. -/
structure HistEntry where
  question : String
  answer : String
  timestamp : String

/-- The mutable state of a `ContextManager`. -/
structure CtxState where
  context : PyDict
  conversation_history : List HistEntry
  empresa_info : Option PyDict
  last_update : String
  messages : List Msg

/-- `ContextManager.__init__`: empty structures. -/
def initCtx : CtxState :=
  { context := [], conversation_history := [], empresa_info := none,
    last_update := "init", messages := [] }

/-- `ContextManager._categorize_company_size` on an integer count. -/
def categorize_company_size (n : Int) : String :=
  if n < 20 then "micro"
  else if n < 100 then "pequeno"
  else if n < 500 then "médio"
  else "grande"

/-- `_categorize_company_size` including its `isinstance` guard (Python
`bool` is an `int`, so `True`/`False` categorize as 1/0). -/
def categorizeV : PyVal → Except String String
  | .int n => .ok (categorize_company_size n)
  | .bool b => .ok (categorize_company_size (if b then 1 else 0))
  | _ => .error "Número de funcionários deve ser um número"

/-- The required fields checked by `update_empresa_context`. -/
def required_fields : List String :=
  ["nome_empresa", "setor", "num_funcionarios", "possui_programa"]

/-- `ContextManager.update_empresa_context`. `now` stands for
`datetime.utcnow().isoformat()`. On success: `empresa_info` is assigned a
copy of the input, `context` is `update`d (merged) with the processed
entries, and then with `dados_adicionais` when present. Failures are
surfaced as the wrapped `ValueError`. -/
def update_empresa_context (st : CtxState) (empresa_data : PyDict) (now : String) :
    Except String CtxState :=
  let missing := required_fields.filter fun f => (empresa_data.lookup f).isNone
  if !missing.isEmpty then
    .error ("Erro ao atualizar contexto da empresa: Campos obrigatórios ausentes: "
            ++ joinSep ", " missing)
  else
    let nf := (empresa_data.lookup "num_funcionarios").getD .none
    match categorizeV nf with
    | .error e => .error ("Erro ao atualizar contexto da empresa: " ++ e)
    | .ok porte =>
      let pp := (empresa_data.lookup "possui_programa").getD .none
      let processed : PyDict :=
        [("nome_empresa", (empresa_data.lookup "nome_empresa").getD .none),
         ("setor", (empresa_data.lookup "setor").getD .none),
         ("num_funcionarios", nf),
         ("possui_programa", pp),
         ("porte", .str porte),
         ("stage", .str (if pyTruthy pp then "experiente" else "iniciante")),
         ("last_update", .str now)]
      let ctx1 := dictUpdate st.context processed
      match empresa_data.lookup "dados_adicionais" with
      | none => .ok { st with empresa_info := some empresa_data, context := ctx1 }
      | some (.dict extras) =>
        .ok { st with empresa_info := some empresa_data,
                      context := dictUpdate ctx1 extras }
      | some _ =>
        .error "Erro ao atualizar contexto da empresa: dados_adicionais não é um dicionário"

/-- `ContextManager.add_conversation_entry`: validates that both arguments
are strings (raising before any mutation otherwise), then appends the
`HumanMessage`/`AIMessage` pair and the structured entry. -/
def add_conversation_entry (st : CtxState) (question answer : PyVal) (now : String) :
    Except String CtxState :=
  match question, answer with
  | .str q, .str a =>
    .ok { st with
          messages := st.messages ++ [.human (pyStripWs q), .ai (pyStripWs a)],
          conversation_history := st.conversation_history ++
            [⟨"Human: " ++ pyStripWs q, "Assistant: " ++ pyStripWs a, now⟩],
          last_update := now }
  | _, _ => .error "Pergunta e resposta devem ser strings"

/-- `add_conversation_entry` as the caller sees it when catching the
`ValueError`: on failure the state is exactly as before the call. -/
def tryAddEntry (st : CtxState) (question answer : PyVal) (now : String) : CtxState :=
  match add_conversation_entry st question answer now with
  | .ok st2 => st2
  | .error _ => st

/-- A run of successful appends (string question/answer pairs). -/
def appendAll (st : CtxState) (pairs : List (String × String)) (now : String) : CtxState :=
  pairs.foldl (fun s p => tryAddEntry s (.str p.1) (.str p.2) now) st

/-- `ContextManager.clear_history`: empties both history representations,
keeps the profile, resets `last_update`. -/
def clear_history (st : CtxState) (now : String) : CtxState :=
  { st with conversation_history := [], messages := [], last_update := now }

/-! ## pdf_processor.py -/

/-- The fields of `PDFProcessor` that `_should_reprocess` reads.
Timestamps are integer ticks; `cache_duration` is 12 hours of ticks. -/
structure ProcState where
  vectorstoreInit : Bool
  last_processed : Option Int
  file_hashes : List (String × String)
  pdf_files : List String
  cache_duration : Int

/-- `PDFProcessor._should_reprocess`. `fs` models the filesystem: for each
existing path its current content hash. -/
def should_reprocess (st : ProcState) (now : Int) (fs : List (String × String)) : Bool :=
  if !st.vectorstoreInit || st.last_processed.isNone then true
  else
    match st.last_processed with
    | none => true
    | some lp =>
      if now - lp > st.cache_duration then true
      else
        st.pdf_files.any fun p =>
          match fs.lookup p with
          | none => true
          | some h =>
            match st.file_hashes.lookup p with
            | none => true
            | some h0 => h0 != h

/-! ## main.py: find_relevant_content -/

/-- `set(query.lower().split())` — as a duplicate-free list. -/
def queryWords (query : String) : List String :=
  (pySplitWs (pyLower query)).dedup

/-- `sum(para.lower().count(word) for word in query_words)`. -/
def scoreOf (words : List String) (para : String) : Nat :=
  (words.map fun w => pyCount w.data (pyLowerL para.data)).sum

/-- The `scored_paragraphs` list of one document: `(score, para)` for each
blank-line-separated paragraph with positive score, in document order. -/
def scoredParagraphs (query : String) (content : String) : List (Nat × String) :=
  (splitSep "\n\n" content).filterMap fun para =>
    let s := scoreOf (queryWords query) para
    if s > 0 then some (s, para) else none

/-- Python string `<=`: code-point lexicographic comparison with the
prefix rule. -/
def lexLeChars : List Char → List Char → Bool
  | [], _ => true
  | _ :: _, [] => false
  | a :: l, b :: m =>
    if a.toNat = b.toNat then lexLeChars l m else decide (a.toNat < b.toNat)

/-- The (non-strict, total) descending order Python's
`list.sort(reverse=True)` establishes on `(score, para)` tuples:
larger score first, ties by larger (code-point lexicographic) string. -/
def tupGEb (a b : Nat × String) : Bool :=
  (decide (b.1 < a.1)) || ((b.1 == a.1) && lexLeChars b.2.data a.2.data)

/-- `tupGEb` as a relation, for `List.insertionSort` and `List.Sorted`. -/
def tupGE (a b : Nat × String) : Prop := tupGEb a b = true

instance : DecidableRel tupGE := fun a b => instDecidableEqBool (tupGEb a b) true

instance : IsTotal (Nat × String) tupGE := by
  constructor
  have htot : ∀ x y : List Char, lexLeChars x y = true ∨ lexLeChars y x = true := by
    intro x
    induction x with
    | nil => intro y; exact Or.inl rfl
    | cons a l ih =>
      intro y
      cases y with
      | nil => exact Or.inr rfl
      | cons b m =>
        show (if a.toNat = b.toNat then lexLeChars l m else decide (a.toNat < b.toNat)) = true
          ∨ (if b.toNat = a.toNat then lexLeChars m l else decide (b.toNat < a.toNat)) = true
        by_cases h : a.toNat = b.toNat
        · rw [if_pos h, if_pos h.symm]
          exact ih m
        · rw [if_neg h, if_neg (fun (e : b.toNat = a.toNat) => h e.symm)]
          rcases Nat.lt_or_ge a.toNat b.toNat with hlt | hge
          · exact Or.inl (decide_eq_true hlt)
          · exact Or.inr
              (decide_eq_true (lt_of_le_of_ne hge (fun (e : b.toNat = a.toNat) => h e.symm)))
  intro a b
  rcases Nat.lt_trichotomy a.1 b.1 with h | h | h
  · refine Or.inr ?_
    show tupGEb b a = true
    unfold tupGEb
    rw [decide_eq_true h, Bool.true_or]
  · rcases htot a.2.data b.2.data with hx | hx
    · refine Or.inr ?_
      show tupGEb b a = true
      unfold tupGEb
      rw [hx, h, beq_self_eq_true, Bool.and_true, Bool.or_eq_true]
      exact Or.inr rfl
    · refine Or.inl ?_
      show tupGEb a b = true
      unfold tupGEb
      rw [hx, h, beq_self_eq_true, Bool.and_true, Bool.or_eq_true]
      exact Or.inr rfl
  · refine Or.inl ?_
    show tupGEb a b = true
    unfold tupGEb
    rw [decide_eq_true h, Bool.true_or]

instance : IsTrans (Nat × String) tupGE := by
  constructor
  have htr : ∀ x y z : List Char,
      lexLeChars x y = true → lexLeChars y z = true → lexLeChars x z = true := by
    intro x
    induction x with
    | nil => intro y z _ _; rfl
    | cons a l ih =>
      intro y z h1 h2
      cases y with
      | nil => exact absurd h1 (by simp [lexLeChars])
      | cons b m =>
        cases z with
        | nil => exact absurd h2 (by simp [lexLeChars])
        | cons c p =>
          rw [show lexLeChars (a :: l) (b :: m)
              = if a.toNat = b.toNat then lexLeChars l m
                else decide (a.toNat < b.toNat) from rfl] at h1
          rw [show lexLeChars (b :: m) (c :: p)
              = if b.toNat = c.toNat then lexLeChars m p
                else decide (b.toNat < c.toNat) from rfl] at h2
          rw [show lexLeChars (a :: l) (c :: p)
              = if a.toNat = c.toNat then lexLeChars l p
                else decide (a.toNat < c.toNat) from rfl]
          by_cases hab : a.toNat = b.toNat <;> by_cases hbc : b.toNat = c.toNat
          · rw [if_pos hab] at h1
            rw [if_pos hbc] at h2
            rw [if_pos (hab.trans hbc)]
            exact ih m p h1 h2
          · rw [if_pos hab] at h1
            rw [if_neg hbc] at h2
            have hac : a.toNat < c.toNat := by
              rw [hab]; exact of_decide_eq_true h2
            rw [if_neg (Nat.ne_of_lt hac)]
            exact decide_eq_true hac
          · rw [if_neg hab] at h1
            rw [if_pos hbc] at h2
            have hac : a.toNat < c.toNat := by
              rw [← hbc]; exact of_decide_eq_true h1
            rw [if_neg (Nat.ne_of_lt hac)]
            exact decide_eq_true hac
          · rw [if_neg hab] at h1
            rw [if_neg hbc] at h2
            have hac : a.toNat < c.toNat :=
              (of_decide_eq_true h1).trans (of_decide_eq_true h2)
            rw [if_neg (Nat.ne_of_lt hac)]
            exact decide_eq_true hac
  intro a b c h1 h2
  unfold tupGE tupGEb at h1 h2 ⊢
  simp only [Bool.or_eq_true, Bool.and_eq_true, decide_eq_true_eq, beq_iff_eq] at h1 h2 ⊢
  rcases h1 with h1 | ⟨h1e, h1x⟩ <;> rcases h2 with h2 | ⟨h2e, h2x⟩
  · exact Or.inl (h2.trans h1)
  · refine Or.inl ?_
    rw [h2e]; exact h1
  · refine Or.inl ?_
    rw [← h1e]; exact h2
  · exact Or.inr ⟨h2e.trans h1e, htr _ _ _ h2x h1x⟩

/-- `scored_paragraphs.sort(reverse=True)`: the stable descending sort on
whole tuples. Elements comparing equal under `tupGE` in both directions
are identical tuples, so any sorted permutation — here insertion sort —
is exactly Python's result. -/
def pySortDesc (l : List (Nat × String)) : List (Nat × String) :=
  l.insertionSort tupGE

/-- The two paragraphs one document contributes:
`[p for _, p in scored_paragraphs[:2]]` after the sort. -/
def selTop2 (query : String) (content : String) : List String :=
  ((pySortDesc (scoredParagraphs query content)).take 2).map Prod.snd

/-- `find_relevant_content(query, documents)` (the keyword fallback):
accumulate each document's two selected paragraphs in iteration order,
join with blank lines, truncate to 4000 characters. -/
def find_relevant_content (query : String) (documents : List (String × String)) : String :=
  let relevant_parts := documents.foldl (fun acc d => acc ++ selTop2 query d.2) []
  pyTake 4000 (joinSep "\n\n" relevant_parts)

/-- The selection rule as claimed by the spec: descending by score with
ties broken by the paragraphs' original order — i.e. a stable sort on
the score alone. Used to exhibit the divergence from the source. -/
def claimSelTop2 (query : String) (content : String) : List String :=
  (((scoredParagraphs query content).insertionSort
      (fun a b => b.1 ≤ a.1)).take 2).map Prod.snd

/-- `find_relevant_content` as the claim describes it (only the tie-break
of the per-document sort differs from the source). -/
def find_relevant_content_claim (query : String) (documents : List (String × String)) :
    String :=
  let parts := documents.foldl (fun acc d => acc ++ claimSelTop2 query d.2) []
  pyTake 4000 (joinSep "\n\n" parts)

/-! ## Helpers for stating the context-manager claims -/

/-- `dados_adicionais`, when present, is a dict (otherwise
`context.update` raises). -/
def dadosOk (data : PyDict) : Bool :=
  match data.lookup "dados_adicionais" with
  | some (.dict _) => true
  | some _ => false
  | none => true

/-- The extra key/value map of a submission (empty when absent). -/
def extrasOf (data : PyDict) : PyDict :=
  match data.lookup "dados_adicionais" with
  | some (.dict e) => e
  | _ => []

/-- The context keys a successful `update_empresa_context` call writes:
the four required fields, the three derived entries, and the keys of
`dados_adicionais`. -/
def writtenKeys (data : PyDict) : List String :=
  required_fields ++ ["porte", "stage", "last_update"] ++ (extrasOf data).map Prod.fst

/-- The extra data does not shadow the derived `porte`/`stage` entries. -/
def extraSafe (data : PyDict) : Bool :=
  ((extrasOf data).lookup "porte").isNone && ((extrasOf data).lookup "stage").isNone

/-- `update_empresa_context` as a state transformer: the caller keeps the
previous state when the call raises. -/
def updD (st : CtxState) (data : PyDict) (now : String) : CtxState :=
  match update_empresa_context st data now with
  | .ok st2 => st2
  | .error _ => st

/-- First concrete submission of claim C2's counterexample: company data
with extra data `{'foo': 'bar'}` (braces spelled out). -/
def exData1 : PyDict :=
  [("nome_empresa", .str "Acme"), ("setor", .str "Varejo"),
   ("num_funcionarios", .int 15), ("possui_programa", .bool false),
   ("dados_adicionais", .dict [("foo", .str "bar")])]

/-- Second concrete submission: different company data, no extra data. -/
def exData2 : PyDict :=
  [("nome_empresa", .str "Beta"), ("setor", .str "TI"),
   ("num_funcionarios", .int 200), ("possui_programa", .bool true)]

/-- A concrete greeting context whose `possui_programa` is the boolean
`True` that the data model declares — not the string `"Sim"`. -/
def ctxBoolTrue : PyDict :=
  [("nome_empresa", .str "Acme"), ("setor", .str "Varejo"),
   ("possui_programa", .bool true)]

/-! ## Shared lemmas -/

theorem lookup_dictInsert (d : PyDict) (k : String) (v : PyVal) (k' : String) :
    (dictInsert d k v).lookup k' = if k' == k then some v else d.lookup k' := by
  induction d with
  | nil =>
    show List.lookup k' [(k, v)] = _
    by_cases hk : k' = k
    · simp [List.lookup, beq_iff_eq.mpr hk, hk]
    · simp [List.lookup, beq_eq_false_iff_ne.mpr hk]
  | cons hd t ih =>
    obtain ⟨a, b⟩ := hd
    unfold dictInsert
    by_cases hak : a = k
    · subst hak
      simp only [beq_self_eq_true, if_true, List.lookup]
      by_cases hk : k' = a
      · simp [hk]
      · simp [beq_eq_false_iff_ne.mpr hk]
    · simp only [beq_eq_false_iff_ne.mpr hak, Bool.false_eq_true, if_false, List.lookup, ih]
      by_cases hk : k' = a
      · subst hk
        simp [beq_eq_false_iff_ne.mpr hak]
      · simp [beq_eq_false_iff_ne.mpr hk]

theorem lookup_dictUpdate_notmem (new : PyDict) (d : PyDict) (k : String)
    (h : ∀ p ∈ new, p.1 ≠ k) : (dictUpdate d new).lookup k = d.lookup k := by
  induction new generalizing d with
  | nil => rfl
  | cons p t ih =>
    show (dictUpdate (dictInsert d p.1 p.2) t).lookup k = _
    rw [ih _ (fun q hq => h q (List.mem_cons_of_mem _ hq)), lookup_dictInsert,
      if_neg]
    intro hkp
    exact h p (List.mem_cons_self _ _) (beq_iff_eq.mp hkp).symm

theorem lookup_isNone_keys (l : PyDict) (k : String) :
    (l.lookup k).isNone = true → ∀ p ∈ l, p.1 ≠ k := by
  induction l with
  | nil => intro _ p hp; cases hp
  | cons q t ih =>
    intro h p hp
    by_cases hq : k = q.1
    · exfalso
      simp [List.lookup, beq_iff_eq.mpr hq] at h
    · rcases List.mem_cons.mp hp with rfl | hp2
      · exact fun e => hq e.symm
      · exact ih (by simpa [List.lookup, beq_eq_false_iff_ne.mpr hq] using h) p hp2

theorem foldl_append_map_flatten {α β : Type} (f : α → List β) (l : List α)
    (acc : List β) :
    l.foldl (fun a x => a ++ f x) acc = acc ++ (l.map f).flatten := by
  induction l generalizing acc with
  | nil => simp
  | cons x t ih => simp [ih, List.append_assoc]

/-! ## Claim theorems -/

/-- C1: `_evaluate_complexity` never computes the documented additive
score: its first criterion indexes `question_patterns` with the key
`has_multiple_questions`, which the pattern dict does not contain, so
every call raises `KeyError` instead of returning
`'simples'`/`'média'`/`'complexa'`. -/
theorem evaluate_complexity_always_keyerror (q : String) :
    evaluate_complexity q = .error "KeyError: has_multiple_questions" := rfl

/-- C6: greeting classification is an exact whole-string match — true
precisely when the lowercased text stripped of surrounding `'!., '`
characters is a member of the fixed greeting set; `"Olá!"` is a greeting
while a greeting word mid-sentence is not. -/
theorem is_greeting_exact_whole_string_match :
    (∀ t : String, is_greeting t = true ↔
      (⟨stripCharsL ['!', '.', ',', ' '] (pyLowerL t.data)⟩ : String) ∈ saudacoes)
    ∧ is_greeting "Olá!" = true
    ∧ is_greeting "Olá, qual o valor do salário do aprendiz?" = false := by
  refine ⟨fun t => ?_, rfl, rfl⟩
  constructor
  · intro h
    exact List.mem_of_elem_eq_true h
  · intro h
    exact List.elem_eq_true_of_mem h

/-- C9: sub-question splitting — the example question splits into exactly
the two expected sub-questions, and in general every fragment returned by
`_split_questions` is non-blank and ends in `'?'`. -/
theorem split_questions_boundary_and_fragments :
    split_questions "Qual a idade mínima e qual o salário?"
      = ["Qual a idade mínima?", "qual o salário?"]
    ∧ ∀ (text q : String), q ∈ split_questions text → q.data.getLast? = some '?' := by
  refine ⟨rfl, fun text q hq => ?_⟩
  simp only [split_questions, List.mem_filterMap] at hq
  obtain ⟨frag, _, hf⟩ := hq
  by_cases h : (stripWsL frag).isEmpty
  · simp [h] at hf
  · simp only [h, Bool.false_eq_true, if_false, Option.some.injEq] at hf
    subst hf
    show (stripWsL frag ++ ['?']).getLast? = some '?'
    simp

/-- Witness for C9's universal part at the example input. -/
theorem split_questions_boundary_and_fragments_witness :
    ("Qual a idade mínima?" : String).data.getLast? = some '?' :=
  split_questions_boundary_and_fragments.2
    "Qual a idade mínima e qual o salário?" "Qual a idade mínima?"
    (by rw [split_questions_boundary_and_fragments.1]; exact List.mem_cons_self _ _)

/-- Shape of every successful `update_empresa_context` call: whatever the
previous state held, `empresa_info` becomes the (copied) input and
`context` is merged — not replaced — with the seven processed entries and
then the extra data. -/
theorem update_success_shape (st : CtxState) (data : PyDict) (now : String) (n : Int)
    (nv sv pv : PyVal)
    (h1 : data.lookup "nome_empresa" = some nv)
    (h2 : data.lookup "setor" = some sv)
    (h3 : data.lookup "num_funcionarios" = some (.int n))
    (h4 : data.lookup "possui_programa" = some pv)
    (hd : dadosOk data = true) :
    update_empresa_context st data now = .ok
      { st with
        empresa_info := some data,
        context := dictUpdate (dictUpdate st.context
          [("nome_empresa", nv), ("setor", sv),
           ("num_funcionarios", .int n), ("possui_programa", pv),
           ("porte", .str (categorize_company_size n)),
           ("stage", .str (if pyTruthy pv then "experiente" else "iniciante")),
           ("last_update", .str now)]) (extrasOf data) } := by
  unfold update_empresa_context
  simp only [required_fields, List.filter, h1, h2, h3, h4, Option.isNone,
    List.isEmpty_nil, Bool.not_true, Bool.false_eq_true, if_false, Option.getD_some,
    categorizeV]
  cases hda : data.lookup "dados_adicionais" with
  | none =>
    simp [extrasOf, hda, dictUpdate]
  | some v =>
    cases v with
    | dict e => simp [extrasOf, hda]
    | str s => simp [dadosOk, hda] at hd
    | int m => simp [dadosOk, hda] at hd
    | bool b => simp [dadosOk, hda] at hd
    | none => simp [dadosOk, hda] at hd

/-- C4: the size category is a pure function of the employee count with
exactly the four documented bands, the stage is a pure function of the
has-program flag's truthiness, and every successful profile (re)set —
from any prior state — stores the freshly recomputed `porte` and `stage`
in the context (provided the open extra data does not shadow them). -/
theorem size_category_stage_pure_recomputed :
    (∀ n : Int,
      (n < 20 → categorize_company_size n = "micro")
      ∧ (20 ≤ n → n < 100 → categorize_company_size n = "pequeno")
      ∧ (100 ≤ n → n < 500 → categorize_company_size n = "médio")
      ∧ (500 ≤ n → categorize_company_size n = "grande"))
    ∧ ∀ (st : CtxState) (data : PyDict) (now : String) (n : Int) (nv sv pv : PyVal),
        data.lookup "nome_empresa" = some nv →
        data.lookup "setor" = some sv →
        data.lookup "num_funcionarios" = some (.int n) →
        data.lookup "possui_programa" = some pv →
        dadosOk data = true →
        extraSafe data = true →
        ∃ st2, update_empresa_context st data now = .ok st2
          ∧ st2.context.lookup "porte" = some (.str (categorize_company_size n))
          ∧ st2.context.lookup "stage"
              = some (.str (if pyTruthy pv then "experiente" else "iniciante")) := by
  constructor
  · intro n
    refine ⟨fun h => ?_, fun h1 h2 => ?_, fun h1 h2 => ?_, fun h => ?_⟩
    · unfold categorize_company_size
      rw [if_pos h]
    · unfold categorize_company_size
      rw [if_neg (by omega), if_pos h2]
    · unfold categorize_company_size
      rw [if_neg (by omega), if_neg (by omega), if_pos h2]
    · unfold categorize_company_size
      rw [if_neg (by omega), if_neg (by omega), if_neg (by omega)]
  · intro st data now n nv sv pv h1 h2 h3 h4 hd hsafe
    have hsplit : ((extrasOf data).lookup "porte").isNone = true
        ∧ ((extrasOf data).lookup "stage").isNone = true := by
      simpa [extraSafe, Bool.and_eq_true] using hsafe
    refine ⟨_, update_success_shape st data now n nv sv pv h1 h2 h3 h4 hd, ?_, ?_⟩
    · dsimp only
      rw [lookup_dictUpdate_notmem _ _ _ (lookup_isNone_keys _ _ hsplit.1)]
      simp [dictUpdate, lookup_dictInsert]
    · dsimp only
      rw [lookup_dictUpdate_notmem _ _ _ (lookup_isNone_keys _ _ hsplit.2)]
      simp [dictUpdate, lookup_dictInsert]

/-- Witness for C4 at a concrete profile write (15 employees, no
program). -/
theorem size_category_stage_pure_recomputed_witness :
    categorize_company_size 15 = "micro"
    ∧ ∃ st2, update_empresa_context initCtx exData1 "t1" = .ok st2
        ∧ st2.context.lookup "porte" = some (.str (categorize_company_size 15))
        ∧ st2.context.lookup "stage"
            = some (.str (if pyTruthy (.bool false) then "experiente" else "iniciante")) :=
  ⟨(size_category_stage_pure_recomputed.1 15).1 (by norm_num),
   size_category_stage_pure_recomputed.2 initCtx exData1 "t1" 15
     (.str "Acme") (.str "Varejo") (.bool false) rfl rfl rfl rfl rfl rfl⟩

/-- C2 (amended): a successful resubmission replaces `empresa_info`
wholesale with the new input, but the derived `context` is merged via
`dict.update`: every key the new call does not write keeps the value it
had before — previous extra data included. -/
theorem update_replaces_profile_but_merges_context :
    ∀ (st : CtxState) (data : PyDict) (now : String) (n : Int) (nv sv pv : PyVal),
      data.lookup "nome_empresa" = some nv →
      data.lookup "setor" = some sv →
      data.lookup "num_funcionarios" = some (.int n) →
      data.lookup "possui_programa" = some pv →
      dadosOk data = true →
      ∃ st2, update_empresa_context st data now = .ok st2
        ∧ st2.empresa_info = some data
        ∧ ∀ k : String, k ∉ writtenKeys data →
            st2.context.lookup k = st.context.lookup k := by
  intro st data now n nv sv pv h1 h2 h3 h4 hd
  refine ⟨_, update_success_shape st data now n nv sv pv h1 h2 h3 h4 hd, rfl, ?_⟩
  intro k hk
  dsimp only
  have hkex : ∀ p ∈ extrasOf data, p.1 ≠ k := by
    intro p hp e
    apply hk
    unfold writtenKeys
    exact List.mem_append.mpr (Or.inr (e ▸ List.mem_map_of_mem Prod.fst hp))
  have hkproc : ∀ p ∈ ([("nome_empresa", nv), ("setor", sv),
      ("num_funcionarios", PyVal.int n), ("possui_programa", pv),
      ("porte", PyVal.str (categorize_company_size n)),
      ("stage", PyVal.str (if pyTruthy pv then "experiente" else "iniciante")),
      ("last_update", PyVal.str now)] : PyDict), p.1 ≠ k := by
    intro p hp e
    apply hk
    subst e
    unfold writtenKeys required_fields
    simp only [List.mem_cons, List.not_mem_nil, or_false] at hp
    rcases hp with rfl | rfl | rfl | rfl | rfl | rfl | rfl <;>
      simp [List.mem_append, List.mem_cons]
  rw [lookup_dictUpdate_notmem _ _ _ hkex, lookup_dictUpdate_notmem _ _ _ hkproc]

/-- Witness for C2's amended statement at the concrete resubmission. -/
theorem update_replaces_profile_but_merges_context_witness :
    ∃ st2, update_empresa_context (updD initCtx exData1 "t1") exData2 "t2" = .ok st2
      ∧ st2.empresa_info = some exData2
      ∧ ∀ k : String, k ∉ writtenKeys exData2 →
          st2.context.lookup k = (updD initCtx exData1 "t1").context.lookup k :=
  update_replaces_profile_but_merges_context (updD initCtx exData1 "t1") exData2 "t2"
    200 (.str "Beta") (.str "TI") (.bool true) rfl rfl rfl rfl rfl

/-- C2 counterexample: both submissions succeed, the second replaces
`empresa_info`, and yet the key `"foo"` — present only in the first
submission's extra data — is still in the stored context afterwards, so
the resubmission is not a wholesale replacement of the stored state. -/
theorem update_counterexample_previous_extra_persists :
    update_empresa_context initCtx exData1 "t1" = .ok (updD initCtx exData1 "t1")
    ∧ update_empresa_context (updD initCtx exData1 "t1") exData2 "t2"
        = .ok (updD (updD initCtx exData1 "t1") exData2 "t2")
    ∧ (updD (updD initCtx exData1 "t1") exData2 "t2").empresa_info = some exData2
    ∧ (updD (updD initCtx exData1 "t1") exData2 "t2").context.lookup "foo"
        = some (.str "bar") :=
  ⟨rfl, rfl, rfl, rfl⟩

/-- Each successful append grows the structured history by one entry and
the message list by its user/assistant pair, from any state. -/
theorem appendAll_lengths (pairs : List (String × String)) :
    ∀ (st : CtxState) (now : String),
      (appendAll st pairs now).conversation_history.length
        = st.conversation_history.length + pairs.length
      ∧ (appendAll st pairs now).messages.length
        = st.messages.length + 2 * pairs.length := by
  induction pairs with
  | nil => intro st now; exact ⟨rfl, rfl⟩
  | cons p t ih =>
    intro st now
    have h := ih (tryAddEntry st (.str p.1) (.str p.2) now) now
    have e1 : (tryAddEntry st (.str p.1) (.str p.2) now).conversation_history.length
        = st.conversation_history.length + 1 := by
      simp [tryAddEntry, add_conversation_entry]
    have e2 : (tryAddEntry st (.str p.1) (.str p.2) now).messages.length
        = st.messages.length + 2 := by
      simp [tryAddEntry, add_conversation_entry]
    constructor
    · show (appendAll (tryAddEntry st (.str p.1) (.str p.2) now) t now).conversation_history.length = _
      rw [h.1, e1]
      simp only [List.length_cons]
      omega
    · show (appendAll (tryAddEntry st (.str p.1) (.str p.2) now) t now).messages.length = _
      rw [h.2, e2]
      simp only [List.length_cons]
      omega

/-- C5: after N successful appends from a fresh manager the structured
history holds exactly N entries and the chat-turn list exactly 2N
messages; an append with a non-string argument fails with the
`ValueError` and leaves the state untouched; `clear_history` empties both
representations together while keeping the profile. -/
theorem append_turn_dual_representation_sync :
    (∀ (pairs : List (String × String)) (now : String),
      (appendAll initCtx pairs now).conversation_history.length = pairs.length
      ∧ (appendAll initCtx pairs now).messages.length = 2 * pairs.length)
    ∧ (∀ (st : CtxState) (q a : PyVal) (now : String),
        q.isStr = false ∨ a.isStr = false →
        add_conversation_entry st q a now
            = .error "Pergunta e resposta devem ser strings"
        ∧ tryAddEntry st q a now = st)
    ∧ (∀ (st : CtxState) (now : String),
        (clear_history st now).conversation_history = []
        ∧ (clear_history st now).messages = []
        ∧ (clear_history st now).empresa_info = st.empresa_info) := by
  refine ⟨fun pairs now => ?_, fun st q a now h => ?_, fun st now => ⟨rfl, rfl, rfl⟩⟩
  · simpa [initCtx] using appendAll_lengths pairs initCtx now
  · cases q <;> cases a <;> simp [PyVal.isStr] at h <;> exact ⟨rfl, rfl⟩

/-- Witness for C5 at concrete inputs (two successful appends; one
rejected non-string append). -/
theorem append_turn_dual_representation_sync_witness :
    ((appendAll initCtx [("q1", "a1"), ("q2", "a2")] "t").conversation_history.length
        = 2
      ∧ (appendAll initCtx [("q1", "a1"), ("q2", "a2")] "t").messages.length = 2 * 2)
    ∧ (add_conversation_entry initCtx (.int 3) (.str "resp") "t"
        = .error "Pergunta e resposta devem ser strings"
      ∧ tryAddEntry initCtx (.int 3) (.str "resp") "t" = initCtx) :=
  ⟨append_turn_dual_representation_sync.1 [("q1", "a1"), ("q2", "a2")] "t",
   append_turn_dual_representation_sync.2.1 initCtx (.int 3) (.str "resp") "t"
     (Or.inl rfl)⟩

/-- C7: `_should_reprocess` reports a rebuild exactly when (a) no index
was built yet, (b) the time since the last build exceeds the cache
duration, (c) a tracked path is missing from the filesystem, or (d) a
tracked document's current fingerprint differs from the recorded one —
so a fingerprint change forces a rebuild regardless of remaining cache
time. -/
theorem should_reprocess_iff_stale :
    ∀ (st : ProcState) (now : Int) (fs : List (String × String)),
      should_reprocess st now fs = true ↔
        (st.vectorstoreInit = false
         ∨ st.last_processed = none
         ∨ (∃ lp, st.last_processed = some lp ∧ now - lp > st.cache_duration)
         ∨ (∃ p, p ∈ st.pdf_files ∧ fs.lookup p = none)
         ∨ (∃ p, p ∈ st.pdf_files ∧ ∃ h, fs.lookup p = some h
              ∧ st.file_hashes.lookup p ≠ some h)) := by
  intro st now fs
  obtain ⟨vec, lp0, hashes, files, cache⟩ := st
  cases vec with
  | false => simp [should_reprocess]
  | true =>
    cases lp0 with
    | none => simp [should_reprocess]
    | some lp =>
      by_cases ht : now - lp > cache
      · simp only [should_reprocess, Bool.not_true, Option.isNone_some, Bool.or_self,
          Bool.false_eq_true, if_false, if_pos ht]
        constructor
        · intro _
          exact Or.inr (Or.inr (Or.inl ⟨lp, rfl, ht⟩))
        · intro _
          trivial
      · simp only [should_reprocess, Bool.not_true, Option.isNone_some, Bool.or_self,
          Bool.false_eq_true, if_false, if_neg ht, List.any_eq_true]
        constructor
        · rintro ⟨p, hp, hpred⟩
          cases hfs : fs.lookup p with
          | none => exact Or.inr (Or.inr (Or.inr (Or.inl ⟨p, hp, hfs⟩)))
          | some h =>
            rw [hfs] at hpred
            cases hh : hashes.lookup p with
            | none =>
              refine Or.inr (Or.inr (Or.inr (Or.inr ⟨p, hp, h, hfs, ?_⟩)))
              rw [hh]
              exact fun e => Option.noConfusion e
            | some h0 =>
              rw [hh] at hpred
              refine Or.inr (Or.inr (Or.inr (Or.inr ⟨p, hp, h, hfs, ?_⟩)))
              rw [hh]
              intro e
              exact bne_iff_ne.mp hpred (Option.some.inj e)
        · rintro (hv | hl | ⟨lp2, hlp2, hgt⟩ | ⟨p, hp, hfs⟩ | ⟨p, hp, h, hfs, hne⟩)
          · exact absurd hv (by simp)
          · exact absurd hl (by simp)
          · rw [← Option.some.inj hlp2] at hgt
            exact absurd hgt ht
          · exact ⟨p, hp, by rw [hfs]⟩
          · refine ⟨p, hp, ?_⟩
            rw [hfs]
            cases hh : hashes.lookup p with
            | none => rfl
            | some h0 =>
              rw [hh] at hne
              exact bne_iff_ne.mpr (fun e => hne (congrArg some e))

/-- C8: the keyword fallback is total (it can only return a string), and
for a query none of whose words occurs in any document paragraph it
returns the empty string rather than failing. -/
theorem find_relevant_content_no_match_empty :
    ∀ (query : String) (documents : List (String × String)),
      (∀ w, w ∈ queryWords query → ∀ nc, nc ∈ documents →
        ∀ para, para ∈ splitSep "\n\n" nc.2 →
          pyCount w.data (pyLowerL para.data) = 0) →
      find_relevant_content query documents = "" := by
  intro query documents h
  have hsel : ∀ nc ∈ documents, selTop2 query nc.2 = [] := by
    intro nc hnc
    have hscored : scoredParagraphs query nc.2 = [] := by
      unfold scoredParagraphs
      apply List.filterMap_eq_nil_iff.mpr
      intro para hpara
      have hz : scoreOf (queryWords query) para = 0 := by
        unfold scoreOf
        apply List.sum_eq_zero
        intro x hx
        simp only [List.mem_map] at hx
        obtain ⟨w, hw, rfl⟩ := hx
        exact h w hw nc hnc para hpara
      simp [hz]
    unfold selTop2
    rw [hscored]
    rfl
  have hflat : ∀ (ds : List (String × String)),
      (∀ nc ∈ ds, selTop2 query nc.2 = []) →
      ((ds.map fun d => selTop2 query d.2).flatten : List String) = [] := by
    intro ds
    induction ds with
    | nil => intro _; rfl
    | cons d t ih =>
      intro hh
      simp [hh d (List.mem_cons_self _ _),
        ih fun nc hnc => hh nc (List.mem_cons_of_mem _ hnc)]
  unfold find_relevant_content
  rw [foldl_append_map_flatten, hflat documents hsel]
  rfl

/-- Witness for C8: a query word absent from the only document. -/
theorem find_relevant_content_no_match_empty_witness :
    find_relevant_content "zzz" [("doc", "hello world")] = "" :=
  find_relevant_content_no_match_empty "zzz" [("doc", "hello world")] (by decide)

/-- C10: in the personalized greeting (company name and sector present
and truthy), the status phrase "já possuem um programa de aprendizagem"
is chosen exactly when the context's `possui_programa` value is the
string `"Sim"`; any other value — the boolean `True` included — yields
the "ainda não possuem" phrasing. -/
theorem greeting_status_phrase_iff_exact_sim :
    ∀ (ctx : PyDict) (nv sv : PyVal),
      ctx.lookup "nome_empresa" = some nv → pyTruthy nv = true →
      ctx.lookup "setor" = some sv → pyTruthy sv = true →
      generate_greeting ctx
        = greetingRendered (pyStr nv) (pyStr sv)
            (pyStr ((ctx.lookup "possui_programa").getD (.str "Não informado")))
            (statusPrograma ctx)
      ∧ (statusPrograma ctx = "já possuem um programa de aprendizagem"
          ↔ ctx.lookup "possui_programa" = some (.str "Sim")) := by
  intro ctx nv sv h1 ht1 h2 ht2
  constructor
  · unfold generate_greeting
    rw [h1, h2]
    simp only [Option.getD_some, ht1, ht2, Bool.not_true, Bool.or_self,
      Bool.false_eq_true, if_false]
  · unfold statusPrograma
    by_cases hp : possuiSim ctx = true
    · rw [if_pos hp]
      unfold possuiSim at hp
      constructor
      · intro _
        cases hl : ctx.lookup "possui_programa" with
        | none => rw [hl] at hp; cases hp
        | some v =>
          cases v with
          | str sx =>
            rw [hl] at hp
            rw [show sx = "Sim" from by simpa using hp]
          | int m => rw [hl] at hp; cases hp
          | bool b => rw [hl] at hp; cases hp
          | none => rw [hl] at hp; cases hp
          | dict d => rw [hl] at hp; cases hp
      · intro _
        rfl
    · rw [if_neg hp]
      constructor
      · intro he
        exact absurd he (by decide)
      · intro hl
        exact absurd (by unfold possuiSim; rw [hl]; rfl) hp

/-- Witness for C10: the profile's declared boolean `True` does not
count as `"Sim"` — the greeting claims the company has no program yet. -/
theorem greeting_status_phrase_iff_exact_sim_witness :
    generate_greeting ctxBoolTrue
      = greetingRendered (pyStr (.str "Acme")) (pyStr (.str "Varejo"))
          (pyStr ((ctxBoolTrue.lookup "possui_programa").getD (.str "Não informado")))
          (statusPrograma ctxBoolTrue)
    ∧ (statusPrograma ctxBoolTrue = "já possuem um programa de aprendizagem"
        ↔ ctxBoolTrue.lookup "possui_programa" = some (.str "Sim")) :=
  greeting_status_phrase_iff_exact_sim ctxBoolTrue (.str "Acme") (.str "Varejo")
    rfl rfl rfl rfl

/-- C3 counterexample: with two equal-scoring paragraphs `"a x"` and
`"b x"`, the source selects them in descending text order
(`"b x"` first), while the claim's tie-break by original document order
would put `"a x"` first — the two functions disagree at this input. -/
theorem find_relevant_content_tiebreak_counterexample :
    find_relevant_content "x" [("d", "a x\n\nb x")] = "b x\n\na x"
    ∧ find_relevant_content_claim "x" [("d", "a x\n\nb x")] = "a x\n\nb x"
    ∧ find_relevant_content "x" [("d", "a x\n\nb x")]
        ≠ find_relevant_content_claim "x" [("d", "a x\n\nb x")] :=
  ⟨rfl, rfl, by decide⟩

/-- C3 (amended): per document the kept pairs are the first two of a
sorted permutation of the positively-scored paragraphs under the
descending (score, text) tuple order — ties fall to the
lexicographically larger text, not to document order — and the
selections are concatenated over documents in iteration order, then
truncated to 4000 characters. -/
theorem find_relevant_content_selection_characterized :
    ∀ (query : String) (documents : List (String × String)),
      (∀ content : String,
        List.Perm (pySortDesc (scoredParagraphs query content))
          (scoredParagraphs query content)
        ∧ List.Sorted tupGE (pySortDesc (scoredParagraphs query content))
        ∧ selTop2 query content
            = ((pySortDesc (scoredParagraphs query content)).take 2).map Prod.snd)
      ∧ find_relevant_content query documents
          = pyTake 4000 (joinSep "\n\n"
              ((documents.map fun d => selTop2 query d.2).flatten)) := by
  intro query documents
  refine ⟨fun content => ⟨List.perm_insertionSort tupGE _,
    List.sorted_insertionSort tupGE _, rfl⟩, ?_⟩
  unfold find_relevant_content
  rw [foldl_append_map_flatten]
  rfl


/-- Witness for C6: the iff applied at a concrete greeting with
surrounding punctuation. -/
theorem is_greeting_exact_whole_string_match_witness :
    is_greeting "Oi." = true :=
  (is_greeting_exact_whole_string_match.1 "Oi.").mpr (by decide)

/-- Witness for C7: a changed fingerprint forces a rebuild although the
cache window (100 ticks, 5 elapsed) has not expired. -/
theorem should_reprocess_iff_stale_witness :
    should_reprocess ⟨true, some 0, [("p", "h1")], ["p"], 100⟩ 5 [("p", "h2")] = true :=
  (should_reprocess_iff_stale ⟨true, some 0, [("p", "h1")], ["p"], 100⟩ 5
      [("p", "h2")]).mpr
    (Or.inr (Or.inr (Or.inr (Or.inr
      ⟨"p", List.mem_cons_self _ _, "h2", rfl, by decide⟩))))


end Eureca
